import Mathlib

/-!
Shallow embedding of the recording pipeline of `src/server.js`
(webrtc-audio-ingest): the session registry (`recordings` Map), the
orchestration `startRecordingForProducer`, the teardown
`stopRecordingForProducer`, the ffmpeg exit handler and the
`convertOggToMp3` post-processing step.

Sequential effectful code is modelled as a pure function returning the
updated registry together with an ordered trace of the observable side
effects (resource allocation, file writes, process spawns, timer delay,
registry mutation). External facts the code merely observes — whether the
router can consume the producer, the recorder's exit code and signal, the
raw file's size, the transcoder's exit code — are parameters.
-/

namespace WebrtcAudioIngest

/-- Observable side effects of the recording pipeline, in the order the
code performs them. `settleDelay` is the `setTimeout` pause (150 ms in the
source) between spawning ffmpeg and resuming the consumer. -/
inductive Ev where
  | portAllocated
  | transportCreated
  | transportConnected
  | capabilityCheck (ok : Bool)
  | transportClosed
  | consumerCreated
  | sdpWritten
  | ffmpegSpawned
  | settleDelay (ms : Nat)
  | consumerResumed
  | registryInsert
  | listenersAttached
  | consumerClosed
  | ffmpegKilledSig (sig : String)
  | registryDelete
  | ffmpegExited
  | mp3Spawned
  | sdpUnlinked
  | oggUnlinked
deriving DecidableEq

/-- One entry of the `recordings` Map: the session record
`{ ffmpeg, consumer, transport, file, sdpFile }`. The opaque mediasoup and
child-process handles are reduced to the one bit the code reads
(`rec.ffmpeg.killed`); the file paths are kept. -/
structure RecEntry where
  ffmpegKilled : Bool
  file : String
  sdpFile : String
deriving DecidableEq

/-- The `recordings` Map, keyed by producer id (modelled as `Nat`). -/
abbrev Registry := List (Nat × RecEntry)

/-- Lookup in the registry (`recordings.get(producerId)`). -/
def rlookup (r : Registry) (pid : Nat) : Option RecEntry :=
  (r.find? (fun q => q.1 == pid)).map (fun q => q.2)

/-- Map set semantics (`recordings.set`): at most one binding per key. -/
def rset (r : Registry) (pid : Nat) (e : RecEntry) : Registry :=
  (pid, e) :: r.filter (fun q => !(q.1 == pid))

/-- Map delete semantics (`recordings.delete`). -/
def rerase (r : Registry) (pid : Nat) : Registry :=
  r.filter (fun q => !(q.1 == pid))

/-- Number of bindings a key has in the registry. -/
def keyCount (r : Registry) (pid : Nat) : Nat :=
  (r.filter (fun q => q.1 == pid)).length

/-- Trace of `startRecordingForProducer` when `router.canConsume` reports
the producer consumable: port probe, plain transport create + connect,
capability check, consumer create (paused), SDP descriptor write, ffmpeg
spawn, 150 ms settling delay, consumer resume, `recordings.set`, close
listeners attached — exactly the order of lines 129-217 of the source. -/
def startEventsOk : List Ev :=
  [Ev.portAllocated, Ev.transportCreated, Ev.transportConnected,
   Ev.capabilityCheck true, Ev.consumerCreated, Ev.sdpWritten,
   Ev.ffmpegSpawned, Ev.settleDelay 150, Ev.consumerResumed,
   Ev.registryInsert, Ev.listenersAttached]

/-- Trace of `startRecordingForProducer` when the capability check fails:
the plain transport has already been created and connected; it is closed
and the function returns (lines 132-145 of the source). -/
def startEventsNoConsume : List Ev :=
  [Ev.portAllocated, Ev.transportCreated, Ev.transportConnected,
   Ev.capabilityCheck false, Ev.transportClosed]

/-- Embedding of `startRecordingForProducer` (lines 126-222). `base` is
the timestamp/peer/producer file-name stem; `canConsume` is the router's
answer to `canConsume`. Note the source performs no lookup of an existing
session: the registry is written with `recordings.set` unconditionally. -/
def startRecordingForProducer (r : Registry) (pid : Nat) (base : String)
    (canConsume : Bool) : Registry × List Ev :=
  if canConsume then
    (rset r pid ⟨false, base ++ ".ogg", base ++ ".sdp"⟩, startEventsOk)
  else
    (r, startEventsNoConsume)

/-- Embedding of `stopRecordingForProducer` (lines 224-236): early return
when no session is registered; otherwise close consumer, close transport,
send SIGINT to ffmpeg unless already killed, and delete the registry
entry — all in one synchronous step. Every effect is inside a
`try/catch`, so the function is total and never raises. -/
def stopRecordingForProducer (r : Registry) (pid : Nat) :
    Registry × List Ev :=
  match rlookup r pid with
  | none => (r, [])
  | some entry =>
      (rerase r pid,
       [Ev.consumerClosed, Ev.transportClosed] ++
         (if entry.ffmpegKilled then [] else [Ev.ffmpegKilledSig "SIGINT"]) ++
         [Ev.registryDelete])

/-- Interpretation of a trace on the registry: only the two registry
events mutate it; every other effect leaves it unchanged. `pid` and `e`
identify the session the trace belongs to. -/
def applyEvent (pid : Nat) (e : RecEntry) (r : Registry) : Ev → Registry
  | Ev.registryInsert => rset r pid e
  | Ev.registryDelete => rerase r pid
  | _ => r

/-- Fold a whole trace over the registry. -/
def applyEvents (pid : Nat) (e : RecEntry) (r : Registry)
    (evs : List Ev) : Registry :=
  evs.foldl (applyEvent pid e) r

/-- The prefix of a successful start up to and including the settling
delay: the window between the ffmpeg spawn and the consumer resume. -/
def settleWindow : List Ev := startEventsOk.take 8

/-- Result of `convertOggToMp3` (lines 101-123): the mp3 target path, the
full ffmpeg argument vector, whether the raw ogg was deleted (only on
conversion exit code 0 with `KEEP_OGG` unset), and the trace. `convCode`
is the external transcoder's exit code (`null` when killed by signal). -/
structure ConvResult where
  mp3File : String
  args : List String
  oggRemoved : Bool
  events : List Ev
deriving DecidableEq

/-- The mp3 path derived from the ogg path:
`oggFile.replace(/\.ogg$/i, '.mp3')` — a no-op when the name does not end
in `.ogg` (case-insensitively). -/
def mp3Name (oggFile : String) : String :=
  if (oggFile.takeRight 4).toLower = ".ogg" then
    oggFile.dropRight 4 ++ ".mp3"
  else oggFile

/-- Embedding of `convertOggToMp3` (lines 101-123). -/
def convertOggToMp3 (keepOgg : Bool) (oggFile bitrate : String)
    (convCode : Option Int) : ConvResult :=
  { mp3File := mp3Name oggFile
    args := ["-hide_banner", "-loglevel", "warning", "-i", oggFile, "-vn",
             "-c:a", "libmp3lame", "-b:a", bitrate, "-ar", "44100",
             "-ac", "2", mp3Name oggFile]
    oggRemoved := convCode == some 0 && !keepOgg
    events := [Ev.mp3Spawned] ++
      (if convCode == some 0 && !keepOgg then [Ev.oggUnlinked] else []) }

/-- The `hasData` check of the exit handler (lines 179-183): `statSync`
succeeding with `size > 8192`; a missing file (`statSync` throwing) is
`false`. -/
def hasData (outSize : Option Nat) : Bool :=
  match outSize with
  | some sz => 8192 < sz
  | none => false

/-- The usable classification of line 186:
`code === 0 || code === 255 || signal === 'SIGINT' || hasData`. -/
def usableOk (code : Option Int) (signal : Option String)
    (outSize : Option Nat) : Bool :=
  code == some 0 || code == some 255 || signal == some "SIGINT" ||
    hasData outSize

/-- Result of the ffmpeg exit handler (lines 175-198). -/
structure ExitResult where
  ok : Bool
  convSpawned : Bool
  conv : Option ConvResult
  sdpRemoved : Bool
  events : List Ev
deriving DecidableEq

/-- Whether the raw ogg file ended up removed by the exit handler. -/
def rawRemoved (res : ExitResult) : Bool :=
  match res.conv with
  | some c => c.oggRemoved
  | none => false

/-- Embedding of the ffmpeg exit handler registered at line 175: classify
the termination; run `convertOggToMp3` when `POST_CONVERT_MP3` is on and
the classification is usable; finally unlink the SDP descriptor
unconditionally (its `unlinkSync` is wrapped in `try/catch` and runs in
every case). The handler never touches the `recordings` registry. -/
def ffmpegExitHandler (postConvert keepOgg : Bool) (bitrate oggFile : String)
    (code : Option Int) (signal : Option String) (outSize : Option Nat)
    (convCode : Option Int) : ExitResult :=
  if postConvert && usableOk code signal outSize then
    { ok := usableOk code signal outSize
      convSpawned := true
      conv := some (convertOggToMp3 keepOgg oggFile bitrate convCode)
      sdpRemoved := true
      events := [Ev.ffmpegExited] ++
        (convertOggToMp3 keepOgg oggFile bitrate convCode).events ++
        [Ev.sdpUnlinked] }
  else
    { ok := usableOk code signal outSize
      convSpawned := false
      conv := none
      sdpRemoved := true
      events := [Ev.ffmpegExited, Ev.sdpUnlinked] }

/-! Registry lemmas shared by several claims. -/

/-- Filtering a key back out of a registry from which it was erased
yields nothing. -/
lemma filter_ne_filter_eq (pid : Nat) (r : Registry) :
    (r.filter (fun q => !(q.1 == pid))).filter (fun q => q.1 == pid) = [] := by
  induction r with
  | nil => rfl
  | cons a t ih =>
      cases h : (a.1 == pid) with
      | true => simp [List.filter_cons, h, ih]
      | false => simp [List.filter_cons, h, ih]

/-- After `recordings.set`, the key has exactly one binding. -/
lemma keyCount_rset (r : Registry) (pid : Nat) (e : RecEntry) :
    keyCount (rset r pid e) pid = 1 := by
  simp [keyCount, rset, List.filter_cons, filter_ne_filter_eq]

/-- Lookup after `recordings.set` finds the new entry. -/
lemma rlookup_rset (r : Registry) (pid : Nat) (e : RecEntry) :
    rlookup (rset r pid e) pid = some e := by
  simp [rlookup, rset, List.find?_cons]

/-- Lookup after `recordings.delete` finds nothing. -/
lemma rlookup_rerase (r : Registry) (pid : Nat) :
    rlookup (rerase r pid) pid = none := by
  induction r with
  | nil => rfl
  | cons a t ih =>
      cases h : (a.1 == pid) with
      | true => simp [rerase, List.filter_cons, h, rlookup, ih]
      | false =>
          simp only [rerase, List.filter_cons, h]
          simp [rlookup, List.find?_cons, h, ih]

/-- The exit handler's trace contains no registry event: folding it over
any registry leaves the registry unchanged. -/
lemma applyEvents_exitHandler (pid : Nat) (e : RecEntry) (r : Registry)
    (pc ko : Bool) (br f : String) (code : Option Int)
    (signal : Option String) (outSize : Option Nat) (convCode : Option Int) :
    applyEvents pid e r
      ((ffmpegExitHandler pc ko br f code signal outSize convCode).events)
      = r := by
  simp only [ffmpegExitHandler]
  split
  · simp only [convertOggToMp3]
    split <;> rfl
  · rfl

/-! Claims about the exit handler and post-processing. -/

/-- C4: recorder termination is classified usable when the exit code is
the conventional success code (0), or the process was stopped by the
SIGINT the supervisor itself sends on graceful stop, or the output file
exceeds the 8192-byte minimum-size threshold. -/
theorem claim4_usable_conditions (pc ko : Bool) (br f : String)
    (code : Option Int) (signal : Option String) (outSize : Option Nat)
    (convCode : Option Int)
    (h : code = some 0 ∨ signal = some "SIGINT" ∨
      (∃ n, outSize = some n ∧ 8192 < n)) :
    (ffmpegExitHandler pc ko br f code signal outSize convCode).ok = true := by
  have hok : (ffmpegExitHandler pc ko br f code signal outSize convCode).ok
      = usableOk code signal outSize := by
    simp only [ffmpegExitHandler]
    split <;> rfl
  rw [hok]
  rcases h with h | h | ⟨n, hn, hlt⟩
  · simp [usableOk, h]
  · simp [usableOk, h]
  · simp [usableOk, hasData, hn, hlt]

/-- Witness for C4 at a concrete input: exit code 0, no signal, no file. -/
theorem claim4_usable_conditions_witness :
    (ffmpegExitHandler true true "160k" "a.ogg" (some 0) none none
      none).ok = true :=
  claim4_usable_conditions true true "160k" "a.ogg" (some 0) none none none
    (Or.inl rfl)

/-- C6: the SDP descriptor file is unlinked by the exit handler for every
exit code, signal, file size and post-conversion outcome. -/
theorem claim6_descriptor_always_removed (pc ko : Bool) (br f : String)
    (code : Option Int) (signal : Option String) (outSize : Option Nat)
    (convCode : Option Int) :
    (ffmpegExitHandler pc ko br f code signal outSize convCode).sdpRemoved
        = true ∧
    Ev.sdpUnlinked ∈
      (ffmpegExitHandler pc ko br f code signal outSize convCode).events := by
  simp only [ffmpegExitHandler]
  constructor
  · split <;> rfl
  · split <;> simp

/-- C2 counterexample: recorder killed by the session's own SIGINT with a
2048-byte raw file (below the 8192 threshold) and post-conversion
enabled: the capture is classified usable (not unusable) and the
post-conversion step is spawned (not skipped), because `signal ===
'SIGINT'` is one of the usable conditions regardless of file size. -/
theorem claim2_counterexample :
    (ffmpegExitHandler true true "160k" "x.ogg" none (some "SIGINT")
      (some 2048) (some 1)).ok = true ∧
    (ffmpegExitHandler true true "160k" "x.ogg" none (some "SIGINT")
      (some 2048) (some 1)).convSpawned = true := by
  constructor <;> rfl

/-- C2 amended: when the recorder is killed by the session's own SIGINT
with a raw file below the threshold and post-conversion is enabled, the
capture is classified usable, the conversion is spawned, the descriptor
is removed, and the raw file is removed exactly when the conversion exits
successfully with the keep-raw option unset (otherwise retained). -/
theorem claim2_amended_sigint_usable (ko : Bool) (br : String)
    (code : Option Int) (convCode : Option Int) :
    (ffmpegExitHandler true ko br "out.ogg" code (some "SIGINT")
      (some 2048) convCode).ok = true ∧
    (ffmpegExitHandler true ko br "out.ogg" code (some "SIGINT")
      (some 2048) convCode).convSpawned = true ∧
    (ffmpegExitHandler true ko br "out.ogg" code (some "SIGINT")
      (some 2048) convCode).sdpRemoved = true ∧
    rawRemoved (ffmpegExitHandler true ko br "out.ogg" code (some "SIGINT")
      (some 2048) convCode) = (convCode == some 0 && !ko) := by
  have hu : usableOk code (some "SIGINT") (some 2048) = true := by
    simp [usableOk]
  simp [ffmpegExitHandler, hu, rawRemoved, convertOggToMp3]

/-- C7: with post-conversion enabled, a raw file above the threshold and
the transcoder exiting successfully, the exit is classified usable, the
conversion is spawned with the configured bitrate as the `-b:a` argument
targeting the derived mp3 path, and the raw artifact is removed exactly
when the keep-raw option is unset. -/
theorem claim7_post_conversion (ko : Bool) (br f : String)
    (code : Option Int) (signal : Option String) (n : Nat)
    (h : 8192 < n) :
    (ffmpegExitHandler true ko br f code signal (some n) (some 0)).ok
        = true ∧
    (ffmpegExitHandler true ko br f code signal (some n)
      (some 0)).convSpawned = true ∧
    (ffmpegExitHandler true ko br f code signal (some n) (some 0)).conv
        = some (convertOggToMp3 ko f br (some 0)) ∧
    (convertOggToMp3 ko f br (some 0)).args
        = ["-hide_banner", "-loglevel", "warning", "-i", f, "-vn",
           "-c:a", "libmp3lame", "-b:a", br, "-ar", "44100",
           "-ac", "2", mp3Name f] ∧
    (convertOggToMp3 ko f br (some 0)).mp3File = mp3Name f ∧
    rawRemoved (ffmpegExitHandler true ko br f code signal (some n)
      (some 0)) = !ko := by
  have hu : usableOk code signal (some n) = true := by
    simp [usableOk, hasData, h]
  refine ⟨?_, ?_, ?_, rfl, rfl, ?_⟩ <;>
    simp [ffmpegExitHandler, hu, rawRemoved, convertOggToMp3]

/-- Witness for C7: keep-raw unset, 50 KB raw file, bitrate 160k. -/
theorem claim7_post_conversion_witness :
    (ffmpegExitHandler true false "160k" "a.ogg" (some 0) none
      (some 51200) (some 0)).convSpawned = true ∧
    rawRemoved (ffmpegExitHandler true false "160k" "a.ogg" (some 0) none
      (some 51200) (some 0)) = true := by
  have h := claim7_post_conversion false "160k" "a.ogg" (some 0) none
    51200 (by norm_num)
  exact ⟨h.2.1, h.2.2.2.2.2⟩

/-! Claims about session start, stop and their ordering. -/

/-- C1 counterexample: with a session for producer 1 already in the
registry, a second start call is not a no-op — its trace still contains
the creation of a second relay transport, a second recorder spawn and a
second descriptor write. -/
theorem claim1_counterexample :
    rlookup [(1, (⟨false, "a.ogg", "a.sdp"⟩ : RecEntry))] 1 ≠ none ∧
    Ev.transportCreated ∈
      (startRecordingForProducer [(1, ⟨false, "a.ogg", "a.sdp"⟩)] 1 "b"
        true).2 ∧
    Ev.ffmpegSpawned ∈
      (startRecordingForProducer [(1, ⟨false, "a.ogg", "a.sdp"⟩)] 1 "b"
        true).2 ∧
    Ev.sdpWritten ∈
      (startRecordingForProducer [(1, ⟨false, "a.ogg", "a.sdp"⟩)] 1 "b"
        true).2 := by
  refine ⟨by decide, by decide, by decide, by decide⟩

/-- C1 amended: starting again for a producer that already has a session
is not a no-op: the code performs no registry check, so a full second set
of resources is allocated (transport, recorder process, descriptor) and
the registry entry is overwritten by the new session; the registry itself
still holds exactly one binding for the producer identifier. -/
theorem claim1_amended_start_overwrites (r : Registry) (pid : Nat)
    (base : String) (e : RecEntry) (_h : rlookup r pid = some e) :
    Ev.transportCreated ∈ (startRecordingForProducer r pid base true).2 ∧
    Ev.ffmpegSpawned ∈ (startRecordingForProducer r pid base true).2 ∧
    Ev.sdpWritten ∈ (startRecordingForProducer r pid base true).2 ∧
    keyCount (startRecordingForProducer r pid base true).1 pid = 1 ∧
    rlookup (startRecordingForProducer r pid base true).1 pid
      = some ⟨false, base ++ ".ogg", base ++ ".sdp"⟩ := by
  refine ⟨?_, ?_, ?_, ?_, ?_⟩
  · show Ev.transportCreated ∈ startEventsOk
    decide
  · show Ev.ffmpegSpawned ∈ startEventsOk
    decide
  · show Ev.sdpWritten ∈ startEventsOk
    decide
  · exact keyCount_rset r pid _
  · exact rlookup_rset r pid _

/-- Witness for C1 amended: registry already holding producer 1. -/
theorem claim1_amended_start_overwrites_witness :
    keyCount (startRecordingForProducer
      [(1, ⟨false, "a.ogg", "a.sdp"⟩)] 1 "b" true).1 1 = 1 ∧
    rlookup (startRecordingForProducer
      [(1, ⟨false, "a.ogg", "a.sdp"⟩)] 1 "b" true).1 1
      = some ⟨false, "b.ogg", "b.sdp"⟩ :=
  have h := claim1_amended_start_overwrites
    [(1, ⟨false, "a.ogg", "a.sdp"⟩)] 1 "b" ⟨false, "a.ogg", "a.sdp"⟩ rfl
  ⟨h.2.2.2.1, h.2.2.2.2⟩

/-- C3 counterexample: stopping producer 1 removes the session from the
registry in the same synchronous step that sends SIGINT, with no recorder
exit observed in that step — so removal does not wait for the process to
reach a terminal state. -/
theorem claim3_counterexample :
    rlookup (stopRecordingForProducer
      [(1, (⟨false, "a.ogg", "a.sdp"⟩ : RecEntry))] 1).1 1 = none ∧
    Ev.registryDelete ∈ (stopRecordingForProducer
      [(1, ⟨false, "a.ogg", "a.sdp"⟩)] 1).2 ∧
    Ev.ffmpegExited ∉ (stopRecordingForProducer
      [(1, ⟨false, "a.ogg", "a.sdp"⟩)] 1).2 := by
  refine ⟨by decide, by decide, by decide⟩

/-- C3 amended: a session is removed from the registry synchronously
during stop — after its consumer and transport are closed and the SIGINT
has been sent, but before the recorder process has exited; the recorder's
exit handler never touches the registry. -/
theorem claim3_amended_removal_on_stop (r : Registry) (pid : Nat)
    (e : RecEntry) (h : rlookup r pid = some e)
    (hk : e.ffmpegKilled = false) :
    (stopRecordingForProducer r pid).2
      = [Ev.consumerClosed, Ev.transportClosed, Ev.ffmpegKilledSig "SIGINT",
         Ev.registryDelete] ∧
    rlookup (stopRecordingForProducer r pid).1 pid = none ∧
    Ev.ffmpegExited ∉ (stopRecordingForProducer r pid).2 ∧
    (∀ pc ko br f code signal outSize convCode,
      applyEvents pid e r
        ((ffmpegExitHandler pc ko br f code signal outSize convCode).events)
        = r) := by
  refine ⟨?_, ?_, ?_, ?_⟩
  · simp [stopRecordingForProducer, h, hk]
  · simp [stopRecordingForProducer, h, rlookup_rerase]
  · simp [stopRecordingForProducer, h, hk]
  · intro pc ko br f code signal outSize convCode
    exact applyEvents_exitHandler pid e r pc ko br f code signal outSize
      convCode

/-- Witness for C3 amended at a concrete registry. -/
theorem claim3_amended_removal_on_stop_witness :
    (stopRecordingForProducer [(1, ⟨false, "a.ogg", "a.sdp"⟩)] 1).2
      = [Ev.consumerClosed, Ev.transportClosed, Ev.ffmpegKilledSig "SIGINT",
         Ev.registryDelete] ∧
    rlookup (stopRecordingForProducer
      [(1, ⟨false, "a.ogg", "a.sdp"⟩)] 1).1 1 = none :=
  have h := claim3_amended_removal_on_stop
    [(1, ⟨false, "a.ogg", "a.sdp"⟩)] 1 ⟨false, "a.ogg", "a.sdp"⟩ rfl rfl
  ⟨h.1, h.2.1⟩

/-- C5 counterexample: with the capability check failing for producer 2,
the trace of start nevertheless contains the creation (and connection) of
the relay transport — contradicting that no transport is created. -/
theorem claim5_counterexample :
    Ev.capabilityCheck false ∈
      (startRecordingForProducer [] 2 "p2" false).2 ∧
    Ev.transportCreated ∈ (startRecordingForProducer [] 2 "p2" false).2 ∧
    Ev.transportConnected ∈
      (startRecordingForProducer [] 2 "p2" false).2 := by
  refine ⟨by decide, by decide, by decide⟩

/-- C5 amended: when the capability check fails, the relay transport has
already been created and connected before the check; on failure it is
closed again, and no consumer is created, no descriptor file is written,
no recorder process is spawned, the consumer is never resumed, and the
session never appears in the registry (the registry is unchanged). -/
theorem claim5_amended_capability_failure (r : Registry) (pid : Nat)
    (base : String) :
    startRecordingForProducer r pid base false = (r, startEventsNoConsume) ∧
    Ev.transportCreated ∈ startEventsNoConsume ∧
    Ev.transportClosed ∈ startEventsNoConsume ∧
    Ev.consumerCreated ∉ startEventsNoConsume ∧
    Ev.sdpWritten ∉ startEventsNoConsume ∧
    Ev.ffmpegSpawned ∉ startEventsNoConsume ∧
    Ev.consumerResumed ∉ startEventsNoConsume ∧
    Ev.registryInsert ∉ startEventsNoConsume ∧
    rlookup (startRecordingForProducer r pid base false).1 pid
      = rlookup r pid :=
  ⟨rfl, by decide, by decide, by decide, by decide, by decide, by decide,
   by decide, rfl⟩

/-- C8: per session, the descriptor write strictly precedes the recorder
spawn, the spawn strictly precedes the consumer resume, and the fixed
150 ms settling delay sits strictly between spawn and resume. -/
theorem claim8_ordering (r : Registry) (pid : Nat) (base : String) :
    (startRecordingForProducer r pid base true).2 = startEventsOk ∧
    startEventsOk.indexOf Ev.sdpWritten
      < startEventsOk.indexOf Ev.ffmpegSpawned ∧
    startEventsOk.indexOf Ev.ffmpegSpawned
      < startEventsOk.indexOf (Ev.settleDelay 150) ∧
    startEventsOk.indexOf (Ev.settleDelay 150)
      < startEventsOk.indexOf Ev.consumerResumed ∧
    Ev.settleDelay 150 ∈ startEventsOk :=
  ⟨rfl, by decide, by decide, by decide, by decide⟩

/-- C9: stopping a producer with no registered session is a no-op that
changes nothing and emits no effect, and a second stop (or a second close
signal) after a first stop for the same producer is always a no-op — the
session is stopped exactly once. -/
theorem claim9_stop_idempotent (r : Registry) (pid : Nat) :
    (rlookup r pid = none → stopRecordingForProducer r pid = (r, [])) ∧
    stopRecordingForProducer (stopRecordingForProducer r pid).1 pid
      = ((stopRecordingForProducer r pid).1, []) := by
  constructor
  · intro h
    simp [stopRecordingForProducer, h]
  · cases h : rlookup r pid with
    | none => simp [stopRecordingForProducer, h]
    | some e => simp [stopRecordingForProducer, h, rlookup_rerase]

/-- Witness for C9: empty registry and a registry holding producer 3. -/
theorem claim9_stop_idempotent_witness :
    stopRecordingForProducer [] 3 = ([], []) ∧
    stopRecordingForProducer
      (stopRecordingForProducer [(3, ⟨false, "a.ogg", "a.sdp"⟩)] 3).1 3
      = ((stopRecordingForProducer
          [(3, ⟨false, "a.ogg", "a.sdp"⟩)] 3).1, []) :=
  ⟨(claim9_stop_idempotent [] 3).1 rfl,
   (claim9_stop_idempotent [(3, ⟨false, "a.ogg", "a.sdp"⟩)] 3).2⟩

/-- C10: in the window between the recorder spawn and the consumer resume
(the trace prefix through the settling delay), the registry has not yet
been written and the close listeners are not yet attached; a stop call or
close signal for the producer in that window is a no-op that releases
nothing, and the producer shows no session in the registry. -/
theorem claim10_settle_window_stop_noop (r : Registry) (pid : Nat)
    (e : RecEntry) (h : rlookup r pid = none) :
    applyEvents pid e r settleWindow = r ∧
    Ev.ffmpegSpawned ∈ settleWindow ∧
    Ev.settleDelay 150 ∈ settleWindow ∧
    Ev.registryInsert ∉ settleWindow ∧
    Ev.listenersAttached ∉ settleWindow ∧
    Ev.consumerResumed ∉ settleWindow ∧
    stopRecordingForProducer r pid = (r, []) ∧
    rlookup (applyEvents pid e r settleWindow) pid = none := by
  refine ⟨rfl, by decide, by decide, by decide, by decide, by decide,
    ?_, ?_⟩
  · simp [stopRecordingForProducer, h]
  · exact h

/-- Witness for C10: empty registry, producer 7. -/
theorem claim10_settle_window_stop_noop_witness :
    applyEvents 7 ⟨false, "a.ogg", "a.sdp"⟩ [] settleWindow = [] ∧
    stopRecordingForProducer [] 7 = ([], []) :=
  have h := claim10_settle_window_stop_noop [] 7
    ⟨false, "a.ogg", "a.sdp"⟩ rfl
  ⟨h.1, h.2.2.2.2.2.2.1⟩

end WebrtcAudioIngest
